import Mathlib

/-!
Shallow embedding of the authentication core of the `node-setup` repository:
password hashing (`hashPassword`, `comparePasswords`), JWT issuance and
verification (`createJWT`, the `protect` middleware) and the two account
handlers (`createNewUser`, `signin`).

The repository is thin glue over two external libraries (`bcryptjs`,
`jsonwebtoken`) and a generated database client (`prisma`).  The libraries are
not part of the repository, so they are modelled here as idealised
collaborators: the one-way functions are collision-free (a digest or a
signature is represented by the data it was computed from, and the model
exposes no inverse), and the randomness a library draws (the bcrypt salt) and
the process environment it reads (the JWT signing secret, fresh ids and
timestamps supplied by the database) are passed as explicit parameters.
All functions of the repository itself are translated statement by statement
from the source.
-/

namespace NodeSetup

/-- The claims a JWT issued by `createJWT` carries: exactly the user's `id`
and `username` (source: `jwt.sign({ id: user.id, username: user.username }, …)`). -/
structure JwtPayload where
  id : String
  username : String
deriving DecidableEq, Repr

/-- Model of the external `bcryptjs` hash value.  The underlying one-way
function is idealised as collision-free: the digest is represented by the
(plaintext, salt) pair it was computed from, and nothing in this development
ever inverts it.  `salt` is the fresh random salt the library draws on each
call to `hash`. -/
structure BcryptHash where
  salt : Nat
  digest : String × Nat
deriving DecidableEq, Repr

/-- `hashPassword` from `src/modules/auth`: `bcryptjs.hash(password, 10)`.
The salt the library draws is an explicit parameter. -/
def hashPassword (password : String) (salt : Nat) : BcryptHash :=
  ⟨salt, (password, salt)⟩

/-- `comparePasswords` from `src/modules/auth`: `bcryptjs.compare(password, hash)`.
The library extracts the salt stored in the hash, recomputes the digest of the
candidate password under that salt, and compares digests. -/
def comparePasswords (password : String) (hash : BcryptHash) : Bool :=
  hash.digest == (password, hash.salt)

/-- Rendering of a `BcryptHash` as the string stored in the `password` column
(real bcrypt output is `$2b$<cost>$<salt+digest>`).  The radix-64 salt/digest
blob is abstracted by an injective encoding: the salt contributes `salt` marker
characters, the ideal digest contributes its preimage, so distinct salts give
renderings of distinct length. -/
def renderBcryptHash (hash : BcryptHash) : String :=
  "$2b$10$" ++ String.mk (List.replicate hash.salt 'O') ++ "$" ++ hash.digest.1

/-- An account row of the `User` table (prisma migration: `_id`, `username`,
`password`, `createdAt`, `updatedAt`). -/
structure User where
  id : String
  username : String
  password : BcryptHash
  createdAt : Nat
  updatedAt : Nat
deriving DecidableEq, Repr

/-- Model of a token of the external `jsonwebtoken` library, idealised as
unforgeable: `signed payload secret` stands for any string that is a valid
signature of `payload` under `secret`; `raw s` stands for any string that is
not a validly signed token under any secret — e.g. the empty string, garbage,
or a structurally truncated token. -/
inductive Jwt where
  | signed (payload : JwtPayload) (secret : String)
  | raw (s : String)
deriving DecidableEq, Repr

/-- Model of `jwt.sign(payload, secret)`. -/
def jwtSign (payload : JwtPayload) (secret : String) : Jwt :=
  .signed payload secret

/-- Model of `jwt.verify(token, secret)`: succeeds exactly on tokens validly
signed under the same secret; throws (here: `.error`) on everything else. -/
def jwtVerify (token : Jwt) (secret : String) : Except String JwtPayload :=
  match token with
  | .signed payload s => if s = secret then .ok payload else .error "invalid signature"
  | .raw _ => .error "jwt malformed"

/-- Compact serialization of a token, as sent over the wire.  A signed token
always starts with the base64url protected header; payload and signature
segments are rendered from the idealised representation. -/
def Jwt.render : Jwt → String
  | .signed payload secret =>
      "eyJhbGciOiJIUzI1NiIsInR5cCI6IkpXVCJ9." ++ payload.id ++ "|" ++ payload.username
        ++ "." ++ secret
  | .raw s => s

/-- `createJWT` from `src/modules/auth`:
`jwt.sign({ id: user.id, username: user.username }, process.env.JWT_SECRET)`.
The process-wide signing secret is an explicit parameter. -/
def createJWT (user : User) (secret : String) : Jwt :=
  jwtSign ⟨user.id, user.username⟩ secret

/-- JavaScript `string.split(sep)` for a one-character separator, on the
character list: splits at every occurrence, keeping empty segments
(`"".split(" ") = [""]`, `"a ".split(" ") = ["a", ""]`). -/
def jsSplitChars (sep : Char) : List Char → List (List Char)
  | [] => [[]]
  | c :: rest =>
    match jsSplitChars sep rest, decide (c = sep) with
    | groups, true => [] :: groups
    | [], false => [[c]]
    | group :: groups, false => (c :: group) :: groups

/-- JavaScript `string.split(sep)` for a one-character separator. -/
def jsSplit (s : String) (sep : Char) : List String :=
  (jsSplitChars sep s.data).map (fun chars => String.mk chars)

/-- Outcome of the `protect` middleware on one request: either it halts with a
status code and a JSON `{message}` body, or it calls `next()` with the decoded
payload attached to `req.user`. -/
inductive ProtectResult where
  | halt (status : Nat) (message : String)
  | next (user : JwtPayload)
deriving DecidableEq, Repr

/-- `protect` from `src/modules/auth`.  `authorization` is the raw
`Authorization` header (`none` when absent); `verify` is the verification the
`jsonwebtoken` import performs with the process secret
(`jwt.verify(token, process.env.JWT_SECRET)`), abstracted as a parameter.
JavaScript truthiness: `!bearer` also fires on a present-but-empty header, and
`!token` on an empty second segment of `bearer.split(" ")`. -/
def protect (verify : String → Except String JwtPayload)
    (authorization : Option String) : ProtectResult :=
  match authorization with
  | none => .halt 401 "Unauthorized"
  | some bearer =>
    if bearer = "" then .halt 401 "Unauthorized"
    else
      match (jsSplit bearer ' ')[1]? with
      | none => .halt 401 "No token provided"
      | some token =>
        if token = "" then .halt 401 "No token provided"
        else
          match verify token with
          | .ok user => .next user
          | .error _ => .halt 401 "Invalid token"

/-- Outcome of an account handler on one request: a JSON `{token}` response, an
error response with a status and JSON `{message}` body, or an uncaught
exception escaping the handler (no try/catch in the source). -/
inductive HandlerResult where
  | jsonToken (token : Jwt)
  | errorResp (status : Nat) (message : String)
  | crash (error : String)
deriving DecidableEq, Repr

/-- Model of `prisma.user.findUnique({ where: { username } })`: the first (and
by the unique index, only) row with that username, or `none`. -/
def findUnique (store : List User) (username : String) : Option User :=
  store.find? (fun u => u.username == username)

/-- `signin` from `src/handlers/user`.  Looks the account up by username; a
missing account makes `user.password` a null dereference, which the source does
not catch (`crash`); otherwise compares passwords, answering 401
`Invalid Credentials` on mismatch and `{token}` on match. -/
def signin (store : List User) (username password secret : String) : HandlerResult :=
  match findUnique store username with
  | none => .crash "TypeError: cannot read properties of null (reading password)"
  | some user =>
    if comparePasswords password user.password then
      .jsonToken (createJWT user secret)
    else
      .errorResp 401 "Invalid Credentials"

/-- `createNewUser` from `src/handlers/user`.  `prisma.user.create` either
persists the row (returning it with the database-supplied id and timestamps,
modelled as parameters `freshId`, `now`) or throws a unique-constraint error on
a duplicate username, which the source does not catch.  On success the handler
issues a token for the new account.  Returns the updated store with the
handler outcome. -/
def createNewUser (store : List User) (username password : String)
    (salt : Nat) (freshId : String) (now : Nat) (secret : String) :
    List User × HandlerResult :=
  if store.any (fun u => u.username == username) then
    (store, .crash "PrismaClientKnownRequestError: unique constraint failed on username")
  else
    let user : User := ⟨freshId, username, hashPassword password salt, now, now⟩
    (store ++ [user], .jsonToken (createJWT user secret))

/-! ## Theorems -/

/-- C1: for every account `a`, verifying the token issued for `a` under the
same signing secret succeeds, and the decoded payload's identifier and handle
equal `a`'s id and username. -/
theorem jwt_issue_verify_roundtrip (a : User) (secret : String) :
    jwtVerify (createJWT a secret) secret = .ok ⟨a.id, a.username⟩ := by
  simp [jwtVerify, createJWT, jwtSign]

/-- C2: when the `Authorization` header yields a token segment and that token
verifies, `protect` attaches the decoded payload and continues to the next
handler; when verification fails, it responds 401 `{message: "Invalid token"}`
and halts. -/
theorem protect_verify_branch (verify : String → Except String JwtPayload)
    (bearer token : String) (payload : JwtPayload)
    (hb : bearer ≠ "") (ht : (jsSplit bearer ' ')[1]? = some token)
    (hne : token ≠ "") :
    (verify token = .ok payload →
      protect verify (some bearer) = .next payload) ∧
    (∀ e, verify token = .error e →
      protect verify (some bearer) = .halt 401 "Invalid token") := by
  constructor
  · intro hv
    simp [protect, hb, ht, hne, hv]
  · intro e hv
    simp [protect, hb, ht, hne, hv]

/-- Witness for C2 at a concrete request: header `Bearer abc` with a verifier
accepting exactly `abc`, and the same header with a rejecting verifier. -/
theorem protect_verify_branch_witness :
    protect (fun s => if s = "abc" then .ok ⟨"1", "johnDoe"⟩ else .error "bad")
      (some "Bearer abc") = .next ⟨"1", "johnDoe"⟩ ∧
    protect (fun _ => .error "bad") (some "Bearer abc")
      = .halt 401 "Invalid token" :=
  ⟨(protect_verify_branch (fun s => if s = "abc" then .ok ⟨"1", "johnDoe"⟩ else .error "bad")
      "Bearer abc" "abc" ⟨"1", "johnDoe"⟩ (by decide) (by decide) (by decide)).1 rfl,
   (protect_verify_branch (fun _ => .error "bad")
      "Bearer abc" "abc" ⟨"1", "johnDoe"⟩ (by decide) (by decide) (by decide)).2 "bad" rfl⟩

/-- C3 (code bug): `signin` with a username matching no stored account
dereferences `user.password` on `null` and crashes with an uncaught exception
instead of returning a 401/404-class response. -/
theorem signin_unknown_username_crashes :
    signin [] "ghost" "mysecretpassword" "topsecret"
      = .crash "TypeError: cannot read properties of null (reading password)" := by
  decide

/-- C4: for a sign-in whose username matches a stored account, a password that
fails verification yields 401 `{message: "Invalid Credentials"}` with no token,
and a password that verifies yields `{token}` for that account. -/
theorem signin_known_username (store : List User) (username password secret : String)
    (user : User) (hfind : findUnique store username = some user) :
    (comparePasswords password user.password = false →
      signin store username password secret = .errorResp 401 "Invalid Credentials") ∧
    (comparePasswords password user.password = true →
      signin store username password secret = .jsonToken (createJWT user secret)) := by
  constructor
  · intro hcmp
    simp [signin, hfind, hcmp]
  · intro hcmp
    simp [signin, hfind, hcmp]

/-- Witness for C4 at a concrete store holding `johnDoe`: the wrong password is
rejected with 401 and the right one yields the account's token. -/
theorem signin_known_username_witness :
    signin [⟨"u1", "johnDoe", hashPassword "mysecretpassword" 7, 0, 0⟩]
        "johnDoe" "wrongpassword" "topsecret" = .errorResp 401 "Invalid Credentials" ∧
    signin [⟨"u1", "johnDoe", hashPassword "mysecretpassword" 7, 0, 0⟩]
        "johnDoe" "mysecretpassword" "topsecret"
      = .jsonToken (createJWT ⟨"u1", "johnDoe", hashPassword "mysecretpassword" 7, 0, 0⟩ "topsecret") :=
  ⟨(signin_known_username [⟨"u1", "johnDoe", hashPassword "mysecretpassword" 7, 0, 0⟩]
      "johnDoe" "wrongpassword" "topsecret"
      ⟨"u1", "johnDoe", hashPassword "mysecretpassword" 7, 0, 0⟩ (by decide)).1 (by decide),
   (signin_known_username [⟨"u1", "johnDoe", hashPassword "mysecretpassword" 7, 0, 0⟩]
      "johnDoe" "mysecretpassword" "topsecret"
      ⟨"u1", "johnDoe", hashPassword "mysecretpassword" 7, 0, 0⟩ (by decide)).2 (by decide)⟩

/-- C5: a sign-up whose persistence create succeeds stores the account with
`password = hash(password)` (never the plaintext: the stored rendering differs
from the submitted plaintext), issues a token for the new account, and returns
`{token}` with a non-empty token string. -/
theorem createNewUser_spec (store : List User) (username password : String)
    (salt : Nat) (freshId : String) (now : Nat) (secret : String)
    (hok : store.any (fun u => u.username == username) = false) :
    (createNewUser store username password salt freshId now secret).1
      = store ++ [⟨freshId, username, hashPassword password salt, now, now⟩] ∧
    (createNewUser store username password salt freshId now secret).2
      = .jsonToken (createJWT ⟨freshId, username, hashPassword password salt, now, now⟩ secret) ∧
    0 < ((createJWT ⟨freshId, username, hashPassword password salt, now, now⟩ secret).render).length ∧
    renderBcryptHash (hashPassword password salt) ≠ password := by
  refine ⟨by simp [createNewUser, hok], by simp [createNewUser, hok], ?_, ?_⟩
  · simp only [createJWT, jwtSign, Jwt.render, String.length_append]
    have h0 : 0 < "eyJhbGciOiJIUzI1NiIsInR5cCI6IkpXVCJ9.".length := by decide
    omega
  · intro h
    have hl := congrArg String.length h
    simp only [renderBcryptHash, hashPassword, String.length_append] at hl
    have e1 : (String.mk (List.replicate salt 'O')).length = salt := by
      simp [String.length_mk]
    have h1 : 0 < "$".length := by decide
    omega

/-- Witness for C5: the spec's example sign-up `{username: "johnDoe",
password: "mysecretpassword"}` against the empty store. -/
theorem createNewUser_spec_witness :
    (createNewUser [] "johnDoe" "mysecretpassword" 7 "u1" 0 "topsecret").1
      = [⟨"u1", "johnDoe", hashPassword "mysecretpassword" 7, 0, 0⟩] ∧
    (createNewUser [] "johnDoe" "mysecretpassword" 7 "u1" 0 "topsecret").2
      = .jsonToken (createJWT ⟨"u1", "johnDoe", hashPassword "mysecretpassword" 7, 0, 0⟩ "topsecret") ∧
    0 < ((createJWT ⟨"u1", "johnDoe", hashPassword "mysecretpassword" 7, 0, 0⟩ "topsecret").render).length ∧
    renderBcryptHash (hashPassword "mysecretpassword" 7) ≠ "mysecretpassword" :=
  createNewUser_spec [] "johnDoe" "mysecretpassword" 7 "u1" 0 "topsecret" (by decide)

/-- C6: a request with no `Authorization` header is answered 401
`{message: "Unauthorized"}` for every verifier, so the middleware halts without
consulting the token verifier or the next handler. -/
theorem protect_no_header (verify : String → Except String JwtPayload) :
    protect verify none = .halt 401 "Unauthorized" := rfl

/-- C7: a request whose `Authorization` header is present but has no token
segment after the scheme prefix (no second segment, or an empty one) is
answered 401 `{message: "No token provided"}` for every verifier, halting
without consulting the token verifier or the next handler. -/
theorem protect_no_token (verify : String → Except String JwtPayload)
    (bearer : String) (hb : bearer ≠ "")
    (ht : (jsSplit bearer ' ')[1]? = none ∨ (jsSplit bearer ' ')[1]? = some "") :
    protect verify (some bearer) = .halt 401 "No token provided" := by
  rcases ht with h | h
  · simp [protect, hb, h]
  · simp [protect, hb, h]

/-- Witness for C7 at the spec's concrete request: header `Bearer` with no
token segment. -/
theorem protect_no_token_witness :
    protect (fun _ => .error "never called") (some "Bearer")
      = .halt 401 "No token provided" :=
  protect_no_token (fun _ => .error "never called") "Bearer" (by decide)
    (Or.inl (by decide))

/-- C8: verifying a plaintext against its own hash succeeds, and two calls of
`hash` on the same plaintext (with the fresh salts the library draws, hence
distinct ones) yield different hash values and different stored hash strings,
while both verify true against the plaintext. -/
theorem bcrypt_hash_verify_salting (p : String) (s1 s2 : Nat) (hs : s1 ≠ s2) :
    comparePasswords p (hashPassword p s1) = true ∧
    comparePasswords p (hashPassword p s2) = true ∧
    hashPassword p s1 ≠ hashPassword p s2 ∧
    renderBcryptHash (hashPassword p s1) ≠ renderBcryptHash (hashPassword p s2) := by
  refine ⟨by simp [comparePasswords, hashPassword], by simp [comparePasswords, hashPassword], ?_, ?_⟩
  · intro h
    exact hs (congrArg BcryptHash.salt h)
  · intro h
    have hl := congrArg String.length h
    simp only [renderBcryptHash, hashPassword, String.length_append] at hl
    have e1 : (String.mk (List.replicate s1 'O')).length = s1 := by
      simp [String.length_mk]
    have e2 : (String.mk (List.replicate s2 'O')).length = s2 := by
      simp [String.length_mk]
    omega

/-- Witness for C8 on the spec's example plaintext with two fresh salts. -/
theorem bcrypt_hash_verify_salting_witness :
    comparePasswords "mysecretpassword" (hashPassword "mysecretpassword" 0) = true ∧
    comparePasswords "mysecretpassword" (hashPassword "mysecretpassword" 1) = true ∧
    hashPassword "mysecretpassword" 0 ≠ hashPassword "mysecretpassword" 1 ∧
    renderBcryptHash (hashPassword "mysecretpassword" 0)
      ≠ renderBcryptHash (hashPassword "mysecretpassword" 1) :=
  bcrypt_hash_verify_salting "mysecretpassword" 0 1 (by decide)

/-- C9: token verification fails (raising the invalid-token error that feeds
the middleware's 401 branch) on the empty string, on any string that is not a
validly signed token — in particular a structurally truncated one — and on a
token signed with a secret different from the process signing secret. -/
theorem jwtVerify_failures (truncated : String) (payload : JwtPayload)
    (secret other : String) (hs : other ≠ secret) :
    jwtVerify (.raw "") secret = .error "jwt malformed" ∧
    jwtVerify (.raw truncated) secret = .error "jwt malformed" ∧
    jwtVerify (.signed payload other) secret = .error "invalid signature" := by
  refine ⟨rfl, rfl, ?_⟩
  simp [jwtVerify, hs]

/-- Witness for C9: the empty string, a token truncated to its protected
header segment, and a token signed under `othersecret` instead of
`topsecret`. -/
theorem jwtVerify_failures_witness :
    jwtVerify (.raw "") "topsecret" = .error "jwt malformed" ∧
    jwtVerify (.raw "eyJhbGciOiJIUzI1NiIsInR5cCI6IkpXVCJ9") "topsecret"
      = .error "jwt malformed" ∧
    jwtVerify (.signed ⟨"1", "johnDoe"⟩ "othersecret") "topsecret"
      = .error "invalid signature" :=
  jwtVerify_failures "eyJhbGciOiJIUzI1NiIsInR5cCI6IkpXVCJ9" ⟨"1", "johnDoe"⟩
    "topsecret" "othersecret" (by decide)

/-- C10: the payload of an issued token is exactly the account's id and
username (the `JwtPayload` type has no other field), so two accounts agreeing
on id and username — in particular two differing only in their stored password
hash — receive identical tokens under the same secret. -/
theorem createJWT_payload_exact (u1 u2 : User) (secret : String)
    (hid : u1.id = u2.id) (hname : u1.username = u2.username) :
    createJWT u1 secret = .signed ⟨u1.id, u1.username⟩ secret ∧
    createJWT u1 secret = createJWT u2 secret := by
  constructor
  · rfl
  · simp [createJWT, jwtSign, hid, hname]

/-- Witness for C10: two accounts identical except for their stored password
hashes receive the same token. -/
theorem createJWT_payload_exact_witness :
    createJWT ⟨"u1", "johnDoe", hashPassword "alpha" 1, 3, 4⟩ "topsecret"
      = .signed ⟨"u1", "johnDoe"⟩ "topsecret" ∧
    createJWT ⟨"u1", "johnDoe", hashPassword "alpha" 1, 3, 4⟩ "topsecret"
      = createJWT ⟨"u1", "johnDoe", hashPassword "beta" 2, 3, 4⟩ "topsecret" :=
  createJWT_payload_exact ⟨"u1", "johnDoe", hashPassword "alpha" 1, 3, 4⟩
    ⟨"u1", "johnDoe", hashPassword "beta" 2, 3, 4⟩ "topsecret" rfl rfl

end NodeSetup
